import Mathlib

/-!
Shallow embedding of `src/src/main.c` — the control logic of a BLE
peripheral (Zephyr firmware) that advertises during connection downtime.

Global mutable state of the C program becomes `DeviceState`; each event
handler (button-intent block of the main loop, connection callback,
pairing callback) becomes a function `DeviceState → DeviceState × List Effect`,
where `Effect` records the observable requests issued to the wireless
stack, the connection reference-count operations, the status-indicator
recomputations (`leds_update` calls), and log messages, in program order.
Stack call results (`bt_le_adv_start` / `bt_le_adv_stop` return codes)
are inputs of the corresponding handler, chosen by the environment.
-/

namespace AdvDowntime

/-- Zephyr errno value for EALREADY; `bt_le_adv_start` returns `-EALREADY`
when advertising is already running. -/
def EALREADY : Int := 120

/-- HCI reason code 0x13, used by `bt_conn_disconnect` in the stop-intent path. -/
def BT_HCI_ERR_REMOTE_USER_TERM_CONN : Nat := 0x13

/-- The mutable globals of `main.c`: `current_conn` (modelled as presence of
the handle), `adv_is_running`, `want_advertising`, `use_rotating_rpa`,
and the four LED output lines (LED0 advertising, LED1 connected,
LED2 RPA mode, LED3 passkey/pairing indicator). -/
structure DeviceState where
  current_conn : Bool
  adv_is_running : Bool
  want_advertising : Bool
  use_rotating_rpa : Bool
  led0 : Bool
  led1 : Bool
  led2 : Bool
  led3 : Bool
deriving DecidableEq, Repr

/-- Observable actions a handler performs, in program order. -/
inductive Effect where
  | reqStartAdv (useIdentity : Bool)
  | reqStopAdv
  | reqDisconnect (reason : Nat)
  | connRef
  | connUnref
  | confirmPairing
  | ledsUpdate
  | logInfo
  | logWarn
  | logErr
deriving DecidableEq, Repr

/-- Requests issued to the wireless stack. -/
def isStackReq : Effect → Bool
  | .reqStartAdv _ => true
  | .reqStopAdv => true
  | .reqDisconnect _ => true
  | _ => false

/-- Start-advertising requests only. -/
def isStartReq : Effect → Bool
  | .reqStartAdv _ => true
  | _ => false

/-- `leds_update`: recompute LED0..LED2 from state; LED3 is owned by the
passkey / auth callbacks. -/
def leds_update (s : DeviceState) : DeviceState :=
  { s with led0 := s.adv_is_running, led1 := s.current_conn,
           led2 := s.use_rotating_rpa }

/-- `adv_stop`: issue `bt_le_adv_stop` (result `stackErr` chosen by the
environment), log a warning on failure, unconditionally clear
`adv_is_running`, call `leds_update`, return the stack error. -/
def adv_stop (stackErr : Int) (s : DeviceState) :
    DeviceState × List Effect × Int :=
  let logE := if stackErr ≠ 0 then Effect.logWarn else Effect.logInfo
  (leds_update { s with adv_is_running := false },
   [Effect.reqStopAdv, logE, Effect.ledsUpdate], stackErr)

/-- `adv_start`: no-op success when connected or already advertising;
otherwise issue `bt_le_adv_start` with `BT_LE_ADV_OPT_USE_IDENTITY` iff
`rotating_rpa` is false. `-EALREADY` is treated as success (marks
advertising running); any other failure returns the error unchanged. -/
def adv_start (rotating_rpa : Bool) (stackErr : Int) (s : DeviceState) :
    DeviceState × List Effect × Int :=
  if s.current_conn then (s, [Effect.logInfo], 0)
  else if s.adv_is_running then (s, [Effect.logInfo], 0)
  else
    let useId := !rotating_rpa
    if stackErr ≠ 0 then
      if stackErr = -EALREADY then
        (leds_update { s with adv_is_running := true },
         [Effect.reqStartAdv useId, Effect.logInfo, Effect.ledsUpdate], 0)
      else
        (s, [Effect.reqStartAdv useId, Effect.logErr], stackErr)
    else
      (leds_update { s with adv_is_running := true },
       [Effect.reqStartAdv useId, Effect.logInfo, Effect.ledsUpdate], 0)

/-- `connected` callback: a non-zero HCI status is logged and ignored;
on success take a reference to the connection, clear `adv_is_running`
(the controller auto-stops advertising on connect), update LEDs. -/
def connected (status : Nat) (s : DeviceState) : DeviceState × List Effect :=
  if status ≠ 0 then (s, [Effect.logErr])
  else
    (leds_update { s with current_conn := true, adv_is_running := false },
     [Effect.logInfo, Effect.connRef, Effect.ledsUpdate])

/-- `disconnected` callback: release the held reference if any, clear the
passkey indicator (LED3), update LEDs, and if `want_advertising` re-issue
`adv_start` with the current privacy mode (`startErr` is the stack's
answer to that start request, if issued). -/
def disconnected (reason : Nat) (startErr : Int) (s : DeviceState) :
    DeviceState × List Effect :=
  let relr :=
    if s.current_conn then
      ({ s with current_conn := false }, [Effect.connUnref])
    else (s, ([] : List Effect))
  let s2 := leds_update { relr.1 with led3 := false }
  let base := [Effect.logInfo] ++ relr.2 ++ [Effect.ledsUpdate]
  if s2.want_advertising then
    let r := adv_start s2.use_rotating_rpa startErr s2
    (r.1, base ++ [Effect.logInfo] ++ r.2.1)
  else (s2, base)

/-- `security_changed` callback: log only. -/
def security_changed (level : Nat) (result : Nat) (s : DeviceState) :
    DeviceState × List Effect :=
  (s, [Effect.logInfo])

/-- `auth_passkey_display`: log the passkey and light LED3. -/
def auth_passkey_display (passkey : Nat) (s : DeviceState) :
    DeviceState × List Effect :=
  ({ s with led3 := true }, [Effect.logInfo])

/-- `pairing_confirm`: auto-accept via `bt_conn_auth_pairing_confirm`. -/
def pairing_confirm (s : DeviceState) : DeviceState × List Effect :=
  (s, [Effect.logInfo, Effect.confirmPairing])

/-- `auth_cancel`: log a warning and clear LED3. -/
def auth_cancel (s : DeviceState) : DeviceState × List Effect :=
  ({ s with led3 := false }, [Effect.logWarn])

/-- `pairing_complete`: log (with bonded flag) and clear LED3. -/
def pairing_complete (bonded : Bool) (s : DeviceState) :
    DeviceState × List Effect :=
  ({ s with led3 := false }, [Effect.logInfo])

/-- `pairing_failed`: log the reason and clear LED3. -/
def pairing_failed (reason : Nat) (s : DeviceState) :
    DeviceState × List Effect :=
  ({ s with led3 := false }, [Effect.logErr])

/-- Main-loop handling of a consumed `start_pressed` intent. -/
def loop_start (startErr : Int) (s : DeviceState) : DeviceState × List Effect :=
  let s1 := { s with want_advertising := true }
  let r := adv_start s1.use_rotating_rpa startErr s1
  (r.1, Effect.logInfo :: r.2.1)

/-- Main-loop handling of a consumed `stop_pressed` intent: clear
`want_advertising`; disconnect the peer when connected, else `adv_stop`. -/
def loop_stop (stopErr : Int) (s : DeviceState) : DeviceState × List Effect :=
  let s1 := { s with want_advertising := false }
  if s1.current_conn then
    (s1, [Effect.logInfo,
          Effect.reqDisconnect BT_HCI_ERR_REMOTE_USER_TERM_CONN])
  else
    let r := adv_stop stopErr s1
    (r.1, Effect.logInfo :: r.2.1)

/-- Main-loop handling of a consumed `toggle_pressed` intent: flip
`use_rotating_rpa`; if advertising, stop and restart under the new mode;
finally `leds_update`. -/
def loop_toggle (stopErr startErr : Int) (s : DeviceState) :
    DeviceState × List Effect :=
  let s1 := { s with use_rotating_rpa := !s.use_rotating_rpa }
  if s1.adv_is_running then
    let r1 := adv_stop stopErr s1
    let r2 := adv_start s1.use_rotating_rpa startErr r1.1
    (leds_update r2.1,
     Effect.logInfo :: (r1.2.1 ++ r2.2.1 ++ [Effect.ledsUpdate]))
  else
    (leds_update s1, [Effect.logInfo, Effect.ledsUpdate])

/-- Every event the system reacts to, carrying the environment's choice of
stack result where the handler issues a stack request. -/
inductive Event where
  | loopStart (startErr : Int)
  | loopStop (stopErr : Int)
  | loopToggle (stopErr startErr : Int)
  | connectedEv (status : Nat)
  | disconnectedEv (reason : Nat) (startErr : Int)
  | securityChangedEv (level result : Nat)
  | passkeyDisplayEv (passkey : Nat)
  | pairingConfirmEv
  | pairingCancelEv
  | pairingCompleteEv (bonded : Bool)
  | pairingFailedEv (reason : Nat)
deriving DecidableEq, Repr

/-- One serialized transition of the device. -/
def step : Event → DeviceState → DeviceState × List Effect
  | .loopStart e, s => loop_start e s
  | .loopStop e, s => loop_stop e s
  | .loopToggle e1 e2, s => loop_toggle e1 e2 s
  | .connectedEv st, s => connected st s
  | .disconnectedEv r e, s => disconnected r e s
  | .securityChangedEv l r, s => security_changed l r s
  | .passkeyDisplayEv k, s => auth_passkey_display k s
  | .pairingConfirmEv, s => pairing_confirm s
  | .pairingCancelEv, s => auth_cancel s
  | .pairingCompleteEv b, s => pairing_complete b s
  | .pairingFailedEv r, s => pairing_failed r s

/-- State after `main`'s initialization: no connection, not advertising,
no desire recorded, rotating-RPA mode, LEDs as left by
`leds_all_off(); leds_update()` (LED2 reflects the RPA mode). -/
def initState : DeviceState :=
  { current_conn := false, adv_is_running := false,
    want_advertising := false, use_rotating_rpa := true,
    led0 := false, led1 := false, led2 := true, led3 := false }

/-- States the device can reach from boot under any event sequence. -/
inductive Reachable : DeviceState → Prop where
  | init : Reachable initState
  | next : ∀ {s} (e : Event), Reachable s → Reachable (step e s).1

/-! ## Theorems -/

/-- No single transition can make `adv_is_running` and `current_conn`
simultaneously true when they were not before. -/
lemma step_mutex (e : Event) (s : DeviceState)
    (h : ¬ (s.adv_is_running = true ∧ s.current_conn = true)) :
    ¬ ((step e s).1.adv_is_running = true ∧ (step e s).1.current_conn = true) := by
  cases e <;>
    simp only [step, loop_start, loop_stop, loop_toggle, connected,
      disconnected, security_changed, auth_passkey_display, pairing_confirm,
      auth_cancel, pairing_complete, pairing_failed, adv_start, adv_stop,
      leds_update] <;>
    (try split_ifs) <;> simp_all

/-- C1: for every reachable state of the device, `adv_is_running` and a
present connection handle are never simultaneously true. -/
theorem mutual_exclusion_invariant (s : DeviceState) (h : Reachable s) :
    ¬ (s.adv_is_running = true ∧ s.current_conn = true) := by
  induction h with
  | init => decide
  | next e _ ih => exact step_mutex e _ ih

/-- Witness for C1: the invariant at the initial state. -/
theorem mutual_exclusion_invariant_witness :
    ¬ (initState.adv_is_running = true ∧ initState.current_conn = true) :=
  mutual_exclusion_invariant initState Reachable.init

/-- A state with a peer attached, as left by a successful connect at boot. -/
def connState : DeviceState := { initState with current_conn := true }

/-- C2: `adv_start` is a no-op success (state unchanged, no stack request)
when a connection is present or advertising is already active; on
`-EALREADY` from the stack it returns success and records advertising as
running; on any other stack failure it returns that error with the state
(hence `adv_is_running`) unchanged. -/
theorem adv_start_contract (s : DeviceState) (r : Bool) (e : Int) :
    ((s.current_conn = true ∨ s.adv_is_running = true) →
       (adv_start r e s).1 = s ∧
       (adv_start r e s).2.1.filter isStackReq = [] ∧
       (adv_start r e s).2.2 = 0) ∧
    (s.current_conn = false → s.adv_is_running = false → e = -EALREADY →
       (adv_start r e s).2.2 = 0 ∧
       (adv_start r e s).1.adv_is_running = true) ∧
    (s.current_conn = false → s.adv_is_running = false → e ≠ 0 →
       e ≠ -EALREADY →
       (adv_start r e s).2.2 = e ∧ (adv_start r e s).1 = s) := by
  refine ⟨?_, ?_, ?_⟩
  · rintro (hc | ha)
    · simp [adv_start, hc, isStackReq]
    · by_cases hc : s.current_conn <;>
        simp [adv_start, hc, ha, isStackReq]
  · intro hc ha he
    subst he
    simp [adv_start, hc, ha, EALREADY, leds_update]
  · intro hc ha he hne
    simp [adv_start, hc, ha, he, hne]

/-- Witness for C2: the three branches at concrete states and stack
results. -/
theorem adv_start_contract_witness :
    ((adv_start true 0 connState).1 = connState ∧
     (adv_start true 0 connState).2.1.filter isStackReq = [] ∧
     (adv_start true 0 connState).2.2 = 0) ∧
    ((adv_start true (-120) initState).2.2 = 0 ∧
     (adv_start true (-120) initState).1.adv_is_running = true) ∧
    ((adv_start true (-5) initState).2.2 = -5 ∧
     (adv_start true (-5) initState).1 = initState) :=
  ⟨(adv_start_contract connState true 0).1 (Or.inl rfl),
   (adv_start_contract initState true (-120)).2.1 rfl rfl (by decide),
   (adv_start_contract initState true (-5)).2.2 rfl rfl (by decide)
     (by decide)⟩

/-- C7: `adv_stop` always clears `adv_is_running`, whatever the stack's
reported result, and logs a warning when the stack reports failure. -/
theorem adv_stop_contract (s : DeviceState) (e : Int) :
    (adv_stop e s).1.adv_is_running = false ∧
    (e ≠ 0 → Effect.logWarn ∈ (adv_stop e s).2.1) := by
  constructor
  · simp [adv_stop, leds_update]
  · intro he
    simp [adv_stop, he]

/-- Witness for C7: a failing stop at the initial state. -/
theorem adv_stop_contract_witness :
    (adv_stop (-5) initState).1.adv_is_running = false ∧
    Effect.logWarn ∈ (adv_stop (-5) initState).2.1 :=
  ⟨(adv_stop_contract initState (-5)).1,
   (adv_stop_contract initState (-5)).2 (by decide)⟩

/-- C3: a disconnect notification with `want_advertising` still true
releases the held connection reference and issues exactly one
start-advertising request, with the identity-address option reflecting
the current privacy mode; when the stack accepts, the device ends with no
connection and advertising running. -/
theorem disconnect_resume (s : DeviceState) (reason : Nat) (e : Int)
    (hc : s.current_conn = true) (hw : s.want_advertising = true)
    (ha : s.adv_is_running = false) (he : e = 0) :
    Effect.connUnref ∈ (step (.disconnectedEv reason e) s).2 ∧
    ((step (.disconnectedEv reason e) s).2).filter isStartReq =
      [Effect.reqStartAdv (!s.use_rotating_rpa)] ∧
    (step (.disconnectedEv reason e) s).1.current_conn = false ∧
    (step (.disconnectedEv reason e) s).1.adv_is_running = true := by
  subst he
  simp [step, disconnected, adv_start, leds_update, hc, hw, ha, isStartReq]

/-- A connected state in which the operator's start desire is recorded. -/
def connWantState : DeviceState :=
  { initState with current_conn := true, want_advertising := true }

/-- Witness for C3: disconnect (reason 8) from a connected state with the
start desire recorded. -/
theorem disconnect_resume_witness :
    Effect.connUnref ∈ (step (.disconnectedEv 8 0) connWantState).2 ∧
    ((step (.disconnectedEv 8 0) connWantState).2).filter isStartReq =
      [Effect.reqStartAdv (!connWantState.use_rotating_rpa)] ∧
    (step (.disconnectedEv 8 0) connWantState).1.current_conn = false ∧
    (step (.disconnectedEv 8 0) connWantState).1.adv_is_running = true :=
  disconnect_resume connWantState 8 0 rfl rfl rfl rfl

/-- C4: a stop intent processed while connected clears `want_advertising`
and issues exactly one stack request: a disconnect with the
local-user-terminated reason code, and in particular no stop-advertising
request. -/
theorem stop_while_connected (s : DeviceState) (e : Int)
    (hc : s.current_conn = true) :
    (step (.loopStop e) s).1.want_advertising = false ∧
    ((step (.loopStop e) s).2).filter isStackReq =
      [Effect.reqDisconnect BT_HCI_ERR_REMOTE_USER_TERM_CONN] := by
  simp [step, loop_stop, hc, isStackReq]

/-- Witness for C4: stop intent at a connected state. -/
theorem stop_while_connected_witness :
    (step (.loopStop 0) connState).1.want_advertising = false ∧
    ((step (.loopStop 0) connState).2).filter isStackReq =
      [Effect.reqDisconnect BT_HCI_ERR_REMOTE_USER_TERM_CONN] :=
  stop_while_connected connState 0 rfl

/-- C5: a toggle intent while advertising with rotating-address mode flips
the stored mode and issues exactly one stop-advertising request followed
by exactly one start-advertising request carrying
`useIdentityAddress = true`. -/
theorem toggle_while_advertising (s : DeviceState) (e1 e2 : Int)
    (ha : s.adv_is_running = true) (hc : s.current_conn = false)
    (hm : s.use_rotating_rpa = true) :
    (step (.loopToggle e1 e2) s).1.use_rotating_rpa = false ∧
    ((step (.loopToggle e1 e2) s).2).filter isStackReq =
      [Effect.reqStopAdv, Effect.reqStartAdv true] := by
  simp only [step, loop_toggle, adv_stop, adv_start, leds_update, ha, hc, hm]
  split_ifs <;> simp_all [isStackReq]

/-- Witness for C5: toggle at an advertising state in rotating mode. -/
theorem toggle_while_advertising_witness :
    (step (.loopToggle 0 0)
      { initState with adv_is_running := true }).1.use_rotating_rpa = false ∧
    ((step (.loopToggle 0 0)
      { initState with adv_is_running := true }).2).filter isStackReq =
      [Effect.reqStopAdv, Effect.reqStartAdv true] :=
  toggle_while_advertising { initState with adv_is_running := true }
    0 0 rfl rfl rfl

/-- A state in which the pairing indicator (LED3) is lit. -/
def led3OnState : DeviceState := { initState with led3 := true }

/-- Counterexample to C6: the disconnect notification also changes the
pairing indicator — with LED3 lit, a disconnect turns it off, so events
other than pairing-cancelled / complete / failed do change it. -/
theorem pairing_indicator_lifecycle_cex :
    ¬ ((step (.disconnectedEv 19 0) led3OnState).1.led3 =
        led3OnState.led3) := by decide

/-- C6 (amended): the passkey-display event sets LED3 true; the
pairing-cancelled, pairing-complete, pairing-failed and additionally the
disconnect events set it false; every other event leaves it unchanged. -/
theorem pairing_indicator_lifecycle (s : DeviceState)
    (k reasonN lvl res rsn st : Nat) (b : Bool) (e e1 e2 : Int) :
    (step (.passkeyDisplayEv k) s).1.led3 = true ∧
    (step .pairingCancelEv s).1.led3 = false ∧
    (step (.pairingCompleteEv b) s).1.led3 = false ∧
    (step (.pairingFailedEv rsn) s).1.led3 = false ∧
    (step (.disconnectedEv reasonN e) s).1.led3 = false ∧
    (step (.loopStart e) s).1.led3 = s.led3 ∧
    (step (.loopStop e1) s).1.led3 = s.led3 ∧
    (step (.loopToggle e1 e2) s).1.led3 = s.led3 ∧
    (step (.connectedEv st) s).1.led3 = s.led3 ∧
    (step (.securityChangedEv lvl res) s).1.led3 = s.led3 ∧
    (step .pairingConfirmEv s).1.led3 = s.led3 := by
  refine ⟨?_, ?_, ?_, ?_, ?_, ?_, ?_, ?_, ?_, ?_, ?_⟩ <;>
    simp only [step, auth_passkey_display, auth_cancel, pairing_complete,
      pairing_failed, disconnected, loop_start, loop_stop, loop_toggle,
      connected, security_changed, pairing_confirm, adv_start, adv_stop,
      leds_update] <;>
    (try split_ifs) <;> simp_all

/-- Counterexample to C8: on the no-op path where a connection is
present, `adv_start` returns without recomputing the status-indicator
outputs (no `leds_update` call is made). -/
theorem status_recompute_cex :
    Effect.ledsUpdate ∉ (adv_start true 0 connState).2.1 := by decide

/-- C8 (amended): `adv_stop` recomputes the status indicators on every
path; `adv_start` recomputes them only on the paths that set advertising
running (stack success and EALREADY), and not on the no-op paths
(connection present, already advertising) or the failure path. -/
theorem status_recompute_amended (s : DeviceState) (r : Bool) (e : Int) :
    Effect.ledsUpdate ∈ (adv_stop e s).2.1 ∧
    (s.current_conn = true →
       Effect.ledsUpdate ∉ (adv_start r e s).2.1) ∧
    (s.current_conn = false → s.adv_is_running = true →
       Effect.ledsUpdate ∉ (adv_start r e s).2.1) ∧
    (s.current_conn = false → s.adv_is_running = false → e = 0 →
       Effect.ledsUpdate ∈ (adv_start r e s).2.1) ∧
    (s.current_conn = false → s.adv_is_running = false → e = -EALREADY →
       Effect.ledsUpdate ∈ (adv_start r e s).2.1) ∧
    (s.current_conn = false → s.adv_is_running = false → e ≠ 0 →
       e ≠ -EALREADY →
       Effect.ledsUpdate ∉ (adv_start r e s).2.1) := by
  refine ⟨by simp [adv_stop], ?_, ?_, ?_, ?_, ?_⟩
  · intro hc
    simp [adv_start, hc]
  · intro hc ha
    simp [adv_start, hc, ha]
  · intro hc ha he
    subst he
    simp [adv_start, hc, ha]
  · intro hc ha he
    subst he
    simp [adv_start, hc, ha, EALREADY]
  · intro hc ha he hne
    simp [adv_start, hc, ha, he, hne]

/-- Witness for C8 (amended): the four kinds of path at concrete inputs. -/
theorem status_recompute_amended_witness :
    Effect.ledsUpdate ∈ (adv_stop 0 initState).2.1 ∧
    Effect.ledsUpdate ∉ (adv_start true 0 connState).2.1 ∧
    Effect.ledsUpdate ∈ (adv_start true 0 initState).2.1 ∧
    Effect.ledsUpdate ∉ (adv_start true (-5) initState).2.1 :=
  ⟨(status_recompute_amended initState true 0).1,
   (status_recompute_amended connState true 0).2.1 rfl,
   (status_recompute_amended initState true 0).2.2.2.1 rfl rfl rfl,
   (status_recompute_amended initState true (-5)).2.2.2.2.2 rfl rfl
     (by decide) (by decide)⟩

/-- C9: a connection-established notification with a failure status and a
security-changed notification (any level / result) each leave the whole
device state unchanged. -/
theorem ignored_notifications (s : DeviceState) (st lvl res : Nat)
    (hst : st ≠ 0) :
    (step (.connectedEv st) s).1 = s ∧
    (step (.securityChangedEv lvl res) s).1 = s := by
  constructor
  · simp [step, connected, hst]
  · rfl

/-- Witness for C9: failed connect (HCI status 2) and a security change at
the initial state. -/
theorem ignored_notifications_witness :
    (step (.connectedEv 2) initState).1 = initState ∧
    (step (.securityChangedEv 4 0) initState).1 = initState :=
  ignored_notifications initState 2 4 0 (by decide)

/-- C10: every disconnect notification leaves the pairing indicator
(LED3) off, whatever the prior state, reason code, or outcome of the
resume-advertising attempt. -/
theorem disconnect_clears_pairing_indicator (s : DeviceState)
    (reasonN : Nat) (e : Int) :
    (step (.disconnectedEv reasonN e) s).1.led3 = false := by
  simp only [step, disconnected, adv_start, adv_stop, leds_update]
  (try split_ifs) <;> simp_all

end AdvDowntime
